import Mathlib

/-!
Shallow embedding of the Medical-Assistant symptom–disease matching engine.

Sources embedded:
- `scripts/init_db.py`, `create_functions`: the PL/pgSQL `diagnose(symptom_ids)`
  function (join, COUNT(DISTINCT), confidence computation, ORDER BY, LIMIT 10).
- `app/services/diagnose_service.py`: `get_symptom_ids`, `get_recommendations`,
  `perform_diagnosis`.
- `app/api/diagnose.py`: the short-circuit when no symptom name resolves.

Modelling decisions, all read off the source:
- SQL tables become lists of rows (`Catalog`); row order stands in for the
  storage engine's natural order.
- `CAST(x AS INTEGER)` applied to a `FLOAT` (double precision) value in
  PostgreSQL rounds to the nearest integer with ties to even (`rint`); it does
  not truncate.  The float arithmetic `(m::FLOAT / t) * 100` is modelled
  exactly over the integers: `roundHalfEven (100 * m) t` is the nearest
  integer to `100 * m / t`, ties to even.
- `ORDER BY 6 DESC, 4 DESC` is realised by a stable insertion sort on the
  descending lexicographic key (confidence_score, match_count); SQL leaves
  further ties to the storage engine, the model keeps catalog order.
-/

/-- A row of the `symptoms` table: id, unique name, severity weight. -/
structure Symptom where
  id : Nat
  name : String
  severity_weight : Int
deriving Repr, DecidableEq

/-- A row of the `diseases` table. -/
structure Disease where
  id : Nat
  name : String
  description : Option String
deriving Repr, DecidableEq

/-- A row of the `disease_symptoms` join table (the association weight is
inert metadata never read by the scoring code, so it is omitted from the row;
`UNIQUE(disease_id, symptom_id)` is a schema constraint, not assumed here). -/
structure DiseaseSymptom where
  disease_id : Nat
  symptom_id : Nat
deriving Repr, DecidableEq

/-- A row of the `recommendations` table. -/
structure Recommendation where
  disease_id : Nat
  recommendation_text : String
  precaution_order : Int
deriving Repr, DecidableEq

/-- A read-only snapshot of the four tables the engine consults. -/
structure Catalog where
  symptoms : List Symptom
  diseases : List Disease
  disease_symptoms : List DiseaseSymptom
  recommendations : List Recommendation
deriving Repr, DecidableEq

/-- One row returned by the SQL `diagnose` function. -/
structure DiagnosisCandidate where
  disease_id : Nat
  disease_name : String
  description : Option String
  match_count : Nat
  total_symptoms : Nat
  confidence_score : Nat
deriving Repr, DecidableEq

/-- One entry of the list built by `perform_diagnosis`: a candidate row with
its recommendations attached. -/
structure DiagnosisResult where
  disease_id : Nat
  disease_name : String
  description : Option String
  match_count : Nat
  total_symptoms : Nat
  confidence_score : Nat
  recommendations : List String
deriving Repr, DecidableEq

/-- All `symptom_id` entries of a disease's rows in `disease_symptoms`
(the subquery `SELECT COUNT(*) FROM disease_symptoms ds2 WHERE
ds2.disease_id = d.id` counts exactly these rows). -/
def profileRows (c : Catalog) (did : Nat) : List Nat :=
  (c.disease_symptoms.filter (fun ds => ds.disease_id = did)).map (·.symptom_id)

/-- The join rows surviving `WHERE ds.symptom_id = ANY(symptom_ids)` for one
disease. -/
def matchedRows (c : Catalog) (did : Nat) (input : List Nat) : List Nat :=
  (profileRows c did).filter (fun s => s ∈ input)

/-- `COUNT(DISTINCT ds.symptom_id)` over the matched join rows. -/
def matchCount (c : Catalog) (did : Nat) (input : List Nat) : Nat :=
  (matchedRows c did input).dedup.length

/-- `SELECT COUNT(*) FROM disease_symptoms WHERE disease_id = d.id`. -/
def totalSymptoms (c : Catalog) (did : Nat) : Nat :=
  (profileRows c did).length

/-- Nearest integer to `a / b`, ties to even: the value of PostgreSQL's
`CAST(x AS INTEGER)` on the double-precision quotient (`rint` semantics). -/
def roundHalfEven (a b : Nat) : Nat :=
  if 2 * (a % b) < b then a / b
  else if b < 2 * (a % b) then a / b + 1
  else if (a / b) % 2 = 0 then a / b else a / b + 1

/-- `CAST((match::FLOAT / NULLIF(total, 0)) * 100 AS INTEGER)`; only ever
evaluated on candidates with at least one matched row, so `t ≠ 0` there. -/
def confidenceScore (m t : Nat) : Nat :=
  roundHalfEven (100 * m) t

/-- The selected columns of one grouped row of the `diagnose` query. -/
def scoreDisease (c : Catalog) (input : List Nat) (d : Disease) : DiagnosisCandidate :=
  { disease_id := d.id
    disease_name := d.name
    description := d.description
    match_count := matchCount c d.id input
    total_symptoms := totalSymptoms c d.id
    confidence_score := confidenceScore (matchCount c d.id input) (totalSymptoms c d.id) }

/-- `ORDER BY 6 DESC, 4 DESC`: column 6 is `confidence_score`, column 4 is
`match_count`, both descending. -/
def candOrder (a b : DiagnosisCandidate) : Prop :=
  b.confidence_score < a.confidence_score ∨
    (a.confidence_score = b.confidence_score ∧ b.match_count ≤ a.match_count)

instance : DecidableRel candOrder := fun a b => by
  unfold candOrder; infer_instance

instance : IsTotal DiagnosisCandidate candOrder where
  total a b := by
    unfold candOrder
    rcases Nat.lt_trichotomy a.confidence_score b.confidence_score with h | h | h
    · exact Or.inr (Or.inl h)
    · rcases Nat.le_total b.match_count a.match_count with hm | hm
      · exact Or.inl (Or.inr ⟨h, hm⟩)
      · exact Or.inr (Or.inr ⟨h.symm, hm⟩)
    · exact Or.inl (Or.inl h)

instance : IsTrans DiagnosisCandidate candOrder where
  trans a b c hab hbc := by
    unfold candOrder at *
    rcases hab with h1 | ⟨h1, m1⟩
    · rcases hbc with h2 | ⟨h2, _⟩
      · exact Or.inl (h2.trans h1)
      · exact Or.inl (h2 ▸ h1)
    · rcases hbc with h2 | ⟨h2, m2⟩
      · exact Or.inl (h1 ▸ h2)
      · exact Or.inr ⟨h1.trans h2, m2.trans m1⟩

/-- The grouped, filtered, scored rows before sorting: one candidate per
disease that the `INNER JOIN` + `WHERE`/`HAVING` keep (at least one distinct
matched symptom), in catalog order. -/
def survivingCandidates (c : Catalog) (input : List Nat) : List DiagnosisCandidate :=
  (c.diseases.filter (fun d => 0 < matchCount c d.id input)).map (scoreDisease c input)

/-- The surviving candidates after `ORDER BY 6 DESC, 4 DESC`. -/
def sortedCandidates (c : Catalog) (input : List Nat) : List DiagnosisCandidate :=
  List.insertionSort candOrder (survivingCandidates c input)

/-- The SQL function `diagnose(symptom_ids INTEGER[])`: score, filter, sort,
`LIMIT 10`. -/
def diagnose (symptom_ids : List Nat) (c : Catalog) : List DiagnosisCandidate :=
  (sortedCandidates c symptom_ids).take 10

/-- Python `str.lower` / SQL `LOWER`, character by character. -/
def pyLower (s : String) : String :=
  ⟨s.data.map Char.toLower⟩

/-- Python `str.strip`: drop leading and trailing whitespace. -/
def pyStrip (s : String) : String :=
  ⟨((s.data.dropWhile Char.isWhitespace).reverse.dropWhile
      Char.isWhitespace).reverse⟩

/-- Python `get_symptom_ids`: per input name, strip + lowercase, look up the
first symptom row with `LOWER(name)` equal to it (`fetchone`), appending its
id and stored name on a hit and dropping the name otherwise. -/
def get_symptom_ids (c : Catalog) (symptom_names : List String) :
    List Nat × List String :=
  symptom_names.foldl
    (fun acc n =>
      match c.symptoms.find? (fun s => pyLower s.name == pyLower (pyStrip n)) with
      | some s => (acc.1 ++ [s.id], acc.2 ++ [s.name])
      | none => acc)
    ([], [])

/-- The rows of the `recommendations` table for one disease, natural order. -/
def diseaseRecRows (c : Catalog) (did : Nat) : List Recommendation :=
  c.recommendations.filter (fun r => r.disease_id = did)

/-- `ORDER BY precaution_order` (ascending). -/
def recOrder (a b : Recommendation) : Prop :=
  a.precaution_order ≤ b.precaution_order

instance : DecidableRel recOrder := fun a b => by
  unfold recOrder; infer_instance

instance : IsTotal Recommendation recOrder where
  total a b := Int.le_total a.precaution_order b.precaution_order

instance : IsTrans Recommendation recOrder where
  trans _ _ _ hab hbc := Int.le_trans hab hbc

/-- Python `get_recommendations`: texts of the disease's recommendation rows
ordered ascending by `precaution_order`. -/
def get_recommendations (c : Catalog) (disease_id : Nat) : List String :=
  (List.insertionSort recOrder (diseaseRecRows c disease_id)).map
    (·.recommendation_text)

/-- Python `perform_diagnosis`: run the SQL `diagnose` function and attach
each returned disease's recommendations. -/
def perform_diagnosis (symptom_ids : List Nat) (c : Catalog) :
    List DiagnosisResult :=
  (diagnose symptom_ids c).map (fun row =>
    { disease_id := row.disease_id
      disease_name := row.disease_name
      description := row.description
      match_count := row.match_count
      total_symptoms := row.total_symptoms
      confidence_score := row.confidence_score
      recommendations := get_recommendations c row.disease_id })

/-- The result list produced by the API handler `diagnose_symptoms`: when no
symptom name resolves it returns the warning response with empty results
without calling `perform_diagnosis`. -/
def diagnose_symptoms (c : Catalog) (symptom_names : List String) :
    List DiagnosisResult :=
  let resolved := get_symptom_ids c symptom_names
  if resolved.1.isEmpty then [] else perform_diagnosis resolved.1 c

/-- The symptoms resolved by `get_symptom_ids`, one entry per input occurrence
that finds an exact (trimmed, lowercased) name match, in input order. -/
def resolvedSymptoms (c : Catalog) (symptom_names : List String) : List Symptom :=
  symptom_names.filterMap
    (fun n => c.symptoms.find? (fun s => pyLower s.name == pyLower (pyStrip n)))

/-- Catalog of the spec's Scenario A, with two recommendation rows for the
Common Cold stored out of ordinal order. -/
def catA : Catalog :=
  { symptoms := [⟨1, "fever", 5⟩, ⟨2, "headache", 5⟩, ⟨3, "cough", 5⟩,
                 ⟨4, "fatigue", 5⟩]
    diseases := [⟨1, "Common Cold", none⟩, ⟨2, "Flu", none⟩, ⟨3, "Migraine", none⟩]
    disease_symptoms := [⟨1, 1⟩, ⟨1, 3⟩, ⟨1, 4⟩, ⟨2, 1⟩, ⟨2, 2⟩, ⟨2, 3⟩, ⟨2, 4⟩,
                         ⟨3, 2⟩]
    recommendations := [⟨1, "Rest", 2⟩, ⟨1, "Hydrate", 1⟩] }

/-- A one-disease catalog whose disease profile has three symptoms. -/
def catC1 : Catalog :=
  { symptoms := []
    diseases := [⟨1, "D", none⟩]
    disease_symptoms := [⟨1, 1⟩, ⟨1, 2⟩, ⟨1, 3⟩]
    recommendations := [] }

theorem get_symptom_ids_foldl (c : Catalog) :
    ∀ (ns : List String) (a : List Nat) (b : List String),
      (ns.foldl
        (fun acc n =>
          match c.symptoms.find? (fun s => pyLower s.name == pyLower (pyStrip n)) with
          | some s => (acc.1 ++ [s.id], acc.2 ++ [s.name])
          | none => acc)
        (a, b))
      = (a ++ (resolvedSymptoms c ns).map (·.id),
         b ++ (resolvedSymptoms c ns).map (·.name)) := by
  intro ns
  induction ns with
  | nil => intro a b; simp [resolvedSymptoms]
  | cons n ns ih =>
      intro a b
      simp only [List.foldl_cons]
      cases h : c.symptoms.find? (fun s => pyLower s.name == pyLower (pyStrip n)) with
      | none => simp [h, resolvedSymptoms, List.filterMap_cons, ih]
      | some s => simp [h, resolvedSymptoms, List.filterMap_cons, ih]

theorem get_symptom_ids_eq (c : Catalog) (ns : List String) :
    get_symptom_ids c ns =
      ((resolvedSymptoms c ns).map (·.id), (resolvedSymptoms c ns).map (·.name)) := by
  simpa using get_symptom_ids_foldl c ns [] []

theorem mem_diagnose {cand : DiagnosisCandidate} {ids : List Nat} {c : Catalog}
    (h : cand ∈ diagnose ids c) :
    ∃ d ∈ c.diseases, 0 < matchCount c d.id ids ∧ cand = scoreDisease c ids d := by
  unfold diagnose at h
  have h1 : cand ∈ sortedCandidates c ids := List.take_subset 10 _ h
  have h2 : cand ∈ survivingCandidates c ids := by
    simpa [sortedCandidates] using h1
  obtain ⟨d, hd, rfl⟩ := List.mem_map.1 h2
  rcases List.mem_filter.1 hd with ⟨hdm, hcond⟩
  exact ⟨d, hdm, by simpa using hcond, rfl⟩

theorem matchCount_le_totalSymptoms (c : Catalog) (did : Nat) (input : List Nat) :
    matchCount c did input ≤ totalSymptoms c did :=
  le_trans ((List.dedup_sublist _).length_le)
    (le_trans ((List.filter_sublist _).length_le) (le_refl _))

theorem roundHalfEven_le_div_succ (a b : Nat) : roundHalfEven a b ≤ a / b + 1 := by
  unfold roundHalfEven
  split_ifs <;> omega

theorem roundHalfEven_mod_zero {a b : Nat} (hb : 0 < b) (h : a % b = 0) :
    roundHalfEven a b = a / b := by
  unfold roundHalfEven
  rw [h]
  simp [hb]

theorem confidenceScore_le_100 {m t : Nat} (hm : m ≤ t) (ht : 0 < t) :
    confidenceScore m t ≤ 100 := by
  rcases Nat.lt_or_ge m t with hlt | hge
  · have hq : 100 * m / t < 100 := (Nat.div_lt_iff_lt_mul ht).2 (by omega)
    have := roundHalfEven_le_div_succ (100 * m) t
    unfold confidenceScore
    omega
  · have heq : m = t := le_antisymm hm hge
    subst heq
    unfold confidenceScore
    rw [roundHalfEven_mod_zero ht (Nat.mul_mod_left 100 m),
      Nat.mul_div_cancel 100 ht]

/-- C1 counterexample: on a disease matching 2 of its 3 profile symptoms the
code returns confidence 67, while truncating division gives 66, so the claimed
floor law fails. -/
theorem C1_counterexample :
    ∃ cand ∈ diagnose [1, 2] catC1,
      cand.confidence_score ≠ 100 * cand.match_count / cand.total_symptoms := by
  decide

/-- C1 (amended): for every candidate returned by `diagnose`, the confidence
score is `100 * match_count / total_symptoms` rounded to the nearest integer
with ties to even (PostgreSQL `CAST(float8 AS INTEGER)` semantics), computed
from the candidate's own fields; a 2-of-3 match scores 67, not 66. -/
theorem C1_confidence_rounding (ids : List Nat) (c : Catalog) :
    ∀ cand ∈ diagnose ids c,
      cand.confidence_score = roundHalfEven (100 * cand.match_count) cand.total_symptoms := by
  intro cand hc
  obtain ⟨d, _, _, rfl⟩ := mem_diagnose hc
  rfl

/-- C1 witness: the rounding law instantiated on the concrete 2-of-3
candidate produced by `diagnose [1, 2] catC1`. -/
theorem C1_confidence_rounding_witness :
    (67 : Nat) = roundHalfEven (100 * 2) 3 :=
  C1_confidence_rounding [1, 2] catC1
    { disease_id := 1, disease_name := "D", description := none,
      match_count := 2, total_symptoms := 3, confidence_score := 67 }
    (by decide)

/-- C2 counterexample: on Scenario A the code's ranked output is not the
claimed sequence, because Common Cold's confidence is 67, not 66. -/
theorem C2_counterexample :
    (diagnose (get_symptom_ids catA ["fever", "headache", "cough"]).1 catA).map
        (fun r => (r.disease_name, r.match_count, r.total_symptoms, r.confidence_score))
      ≠ [("Migraine", 1, 1, 100), ("Flu", 3, 4, 75), ("Common Cold", 2, 3, 66)] := by
  decide

/-- C2 (amended): on Scenario A's catalog, diagnosing with [fever, headache,
cough] returns exactly Migraine (1 of 1, confidence 100), then Flu (3 of 4,
confidence 75), then Common Cold (2 of 3, confidence 67). -/
theorem C2_scenarioA :
    diagnose (get_symptom_ids catA ["fever", "headache", "cough"]).1 catA
      = [⟨3, "Migraine", none, 1, 1, 100⟩,
         ⟨2, "Flu", none, 3, 4, 75⟩,
         ⟨1, "Common Cold", none, 2, 3, 67⟩] := by
  decide

/-- C3 counterexample: resolving the same symptom twice yields the id twice —
duplicates are not collapsed to a single id. -/
theorem C3_counterexample :
    (get_symptom_ids catA ["fever", " FEVER "]).1 = [1, 1] ∧
      ¬ (get_symptom_ids catA ["fever", " FEVER "]).1.Nodup := by
  constructor
  · decide
  · decide

/-- C3 (amended): name resolution returns the ids and the canonical catalog
names of the matched symptoms, one entry per matched input occurrence in
input order — duplicates are retained, not collapsed; an input matches only
by exact equality of its trimmed, lowercased form with a lowercased catalog
name, and every returned name is a canonical catalog name. -/
theorem C3_resolution (c : Catalog) (ns : List String) :
    get_symptom_ids c ns =
        ((resolvedSymptoms c ns).map (·.id), (resolvedSymptoms c ns).map (·.name)) ∧
      ∀ nm ∈ (get_symptom_ids c ns).2, ∃ s ∈ c.symptoms, s.name = nm := by
  refine ⟨get_symptom_ids_eq c ns, ?_⟩
  intro nm hnm
  rw [get_symptom_ids_eq c ns] at hnm
  obtain ⟨s, hs, rfl⟩ := List.mem_map.1 hnm
  obtain ⟨n, _, hfind⟩ := List.mem_filterMap.1 hs
  exact ⟨s, List.mem_of_find?_eq_some hfind, rfl⟩

/-- C3 witness: the characterisation instantiated on a duplicated input over
Scenario A's catalog, with the canonical-name hypothesis discharged on the
first returned name. -/
theorem C3_resolution_witness :
    (get_symptom_ids catA ["fever", " FEVER "] =
        ((resolvedSymptoms catA ["fever", " FEVER "]).map (·.id),
         (resolvedSymptoms catA ["fever", " FEVER "]).map (·.name))) ∧
      ∃ s ∈ catA.symptoms, s.name = "fever" :=
  ⟨(C3_resolution catA ["fever", " FEVER "]).1,
   (C3_resolution catA ["fever", " FEVER "]).2 "fever" (by decide)⟩

/-- C4: on any non-empty input, every returned candidate has
`1 ≤ match_count ≤ total_symptoms` and `0 ≤ confidence_score ≤ 100`, and its
profile is non-empty (`total_symptoms ≠ 0`), so the confidence division never
divides by zero. -/
theorem C4_bounds (ids : List Nat) (c : Catalog) (_hne : ids ≠ []) :
    ∀ cand ∈ diagnose ids c,
      1 ≤ cand.match_count ∧ cand.match_count ≤ cand.total_symptoms ∧
        0 ≤ cand.confidence_score ∧ cand.confidence_score ≤ 100 ∧
        cand.total_symptoms ≠ 0 := by
  intro cand hc
  obtain ⟨d, _, hpos, rfl⟩ := mem_diagnose hc
  have hmt : matchCount c d.id ids ≤ totalSymptoms c d.id :=
    matchCount_le_totalSymptoms c d.id ids
  have ht : 0 < totalSymptoms c d.id := lt_of_lt_of_le hpos hmt
  exact ⟨hpos, hmt, Nat.zero_le _, confidenceScore_le_100 hmt ht, Nat.pos_iff_ne_zero.1 ht⟩

/-- C4 witness: the bounds instantiated on the concrete candidate returned by
`diagnose [1, 2] catC1`. -/
theorem C4_bounds_witness :
    1 ≤ (2 : Nat) ∧ (2 : Nat) ≤ 3 ∧ (0 : Nat) ≤ 67 ∧ (67 : Nat) ≤ 100 ∧
      (3 : Nat) ≠ 0 :=
  C4_bounds [1, 2] catC1 (by decide)
    { disease_id := 1, disease_name := "D", description := none,
      match_count := 2, total_symptoms := 3, confidence_score := 67 }
    (by decide)

/-- C5: for every input and catalog, consecutive candidates a before b in the
output satisfy a.confidence_score > b.confidence_score, or equal confidence
and a.match_count ≥ b.match_count (confidence descending, ties by match count
descending). -/
theorem C5_sorted (ids : List Nat) (c : Catalog) :
    (diagnose ids c).Chain' (fun a b =>
      b.confidence_score < a.confidence_score ∨
        (a.confidence_score = b.confidence_score ∧ b.match_count ≤ a.match_count)) := by
  have h : (sortedCandidates c ids).Pairwise candOrder :=
    List.sorted_insertionSort candOrder (survivingCandidates c ids)
  have h2 : (diagnose ids c).Pairwise candOrder :=
    List.Pairwise.sublist (List.take_sublist 10 _) h
  exact h2.chain'

/-- C6: for every input and catalog, the output is exactly the first 10
entries of the sorted surviving-candidate sequence, so its length is at
most 10. -/
theorem C6_limit (ids : List Nat) (c : Catalog) :
    diagnose ids c = (sortedCandidates c ids).take 10 ∧
      (diagnose ids c).length ≤ 10 :=
  ⟨rfl, List.length_take_le 10 (sortedCandidates c ids)⟩

/-- C7: when every input name fails to resolve against the catalog, name
resolution returns an empty id list and an empty matched-name list without
error, and the API result is the empty candidate list produced by the
short-circuit that never invokes the diagnosis engine. -/
theorem C7_unknown_names (c : Catalog) (ns : List String)
    (h : ∀ n ∈ ns,
      c.symptoms.find? (fun s => pyLower s.name == pyLower (pyStrip n)) = none) :
    get_symptom_ids c ns = ([], []) ∧ diagnose_symptoms c ns = [] := by
  have hres : resolvedSymptoms c ns = [] := by
    rw [resolvedSymptoms, List.filterMap_eq_nil_iff]
    exact h
  have h1 : get_symptom_ids c ns = ([], []) := by
    rw [get_symptom_ids_eq, hres]
    simp
  refine ⟨h1, ?_⟩
  rw [diagnose_symptoms, h1]
  simp

/-- C7 witness: the all-unknown-input behaviour on Scenario A's catalog with
the query of the spec's Scenario B. -/
theorem C7_unknown_names_witness :
    get_symptom_ids catA ["nonexistent_symptom"] = ([], []) ∧
      diagnose_symptoms catA ["nonexistent_symptom"] = [] :=
  C7_unknown_names catA ["nonexistent_symptom"] (by decide)

/-- C8: every result of `perform_diagnosis` carries exactly the output of
`get_recommendations` for its disease: the disease's recommendation rows
sorted ascending by `precaution_order` (a sorted permutation of the stored
rows, not their natural row order), and the empty list when the disease has
no recommendation rows. -/
theorem C8_recommendations (ids : List Nat) (c : Catalog) :
    ∀ res ∈ perform_diagnosis ids c,
      res.recommendations = get_recommendations c res.disease_id ∧
        (List.insertionSort recOrder (diseaseRecRows c res.disease_id)).Sorted recOrder ∧
        List.Perm (List.insertionSort recOrder (diseaseRecRows c res.disease_id))
          (diseaseRecRows c res.disease_id) ∧
        (diseaseRecRows c res.disease_id = [] → res.recommendations = []) := by
  intro res hres
  obtain ⟨row, _, rfl⟩ := List.mem_map.1 hres
  refine ⟨rfl, List.sorted_insertionSort recOrder _, List.perm_insertionSort recOrder _, ?_⟩
  intro hnil
  simp [get_recommendations, hnil]

/-- C8 witness: the recommendation contract instantiated on the Common Cold
result of `perform_diagnosis [1] catA`, whose two stored rows are held out of
ordinal order in the catalog. -/
theorem C8_recommendations_witness :
    (["Hydrate", "Rest"] : List String) = get_recommendations catA 1 ∧
      (List.insertionSort recOrder (diseaseRecRows catA 1)).Sorted recOrder ∧
      List.Perm (List.insertionSort recOrder (diseaseRecRows catA 1))
        (diseaseRecRows catA 1) ∧
      (diseaseRecRows catA 1 = [] → (["Hydrate", "Rest"] : List String) = []) :=
  C8_recommendations [1] catA
    { disease_id := 1, disease_name := "Common Cold", description := none,
      match_count := 1, total_symptoms := 3, confidence_score := 33,
      recommendations := ["Hydrate", "Rest"] }
    (by decide)

/-- C9: the diagnosis operation is deterministic — two calls with the same
resolved id set against an unchanged catalog yield identical ordered
sequences, both for the SQL function and for `perform_diagnosis`. -/
theorem C9_deterministic (ids₁ ids₂ : List Nat) (c₁ c₂ : Catalog)
    (hids : ids₁ = ids₂) (hc : c₁ = c₂) :
    diagnose ids₁ c₁ = diagnose ids₂ c₂ ∧
      perform_diagnosis ids₁ c₁ = perform_diagnosis ids₂ c₂ := by
  subst hids
  subst hc
  exact ⟨rfl, rfl⟩

/-- C9 witness: determinism instantiated on a concrete repeated call. -/
theorem C9_deterministic_witness :
    diagnose [1] catA = diagnose [1] catA ∧
      perform_diagnosis [1] catA = perform_diagnosis [1] catA :=
  C9_deterministic [1] [1] catA catA rfl rfl

theorem matchedRows_input_congr (c : Catalog) (did : Nat) {i₁ i₂ : List Nat}
    (h : ∀ x, x ∈ i₁ ↔ x ∈ i₂) :
    matchedRows c did i₁ = matchedRows c did i₂ := by
  unfold matchedRows
  congr 1
  funext s
  exact decide_eq_decide.2 (h s)

theorem diagnose_input_congr (c : Catalog) {i₁ i₂ : List Nat}
    (h : ∀ x, x ∈ i₁ ↔ x ∈ i₂) :
    diagnose i₁ c = diagnose i₂ c := by
  have hmr : ∀ did, matchedRows c did i₁ = matchedRows c did i₂ :=
    fun did => matchedRows_input_congr c did h
  have hs : scoreDisease c i₁ = scoreDisease c i₂ := by
    funext d
    simp only [scoreDisease, matchCount, hmr]
  simp only [diagnose, sortedCandidates, survivingCandidates, matchCount, hmr, hs]

/-- C10: diagnosis is invariant under duplicate input symptom ids — removing
duplicates from the id list changes neither the SQL function's candidate
sequence nor the attached-recommendation results. -/
theorem C10_dedup_invariant (ids : List Nat) (c : Catalog) :
    diagnose ids.dedup c = diagnose ids c ∧
      perform_diagnosis ids.dedup c = perform_diagnosis ids c := by
  have h : diagnose ids.dedup c = diagnose ids c :=
    diagnose_input_congr c (fun x => List.mem_dedup)
  exact ⟨h, by rw [perform_diagnosis, h, perform_diagnosis]⟩
